import Mathlib

/-!
Verification of the RET behaviour-pool / trigger-factory / target-resolver core.

The repository slice under verification consists of the trigger factory
(`mesa_ret.creator.triggers`), the behaviour pool
(`ret.behaviours.behaviourpool`) and the default hostile target resolver
(`mesa_ret.behaviours.fire.DefaultHostileTargetResolver`).  The implementation
modules themselves are not part of the source excerpt; only their test suites
and callers are.  Every definition below is therefore modelled from the spec,
with the concrete behaviour pinned by the repository's own test files
(`test_create_multiple_triggers.py`, `test_fire_target_selection.py`,
`test_armouragent.py`, `test_airdefenceagent.py`), which are part of the
source excerpt and are treated as authoritative where they and the spec
disagree.
-/

/-- Affiliation enumeration from `agents.affiliation`: allegiance tag carried
by agents and perceived agents.  Iteration order (used by the tests when
building the perceived world) is declaration order. -/
inductive Affiliation where
  | FRIENDLY
  | HOSTILE
  | NEUTRAL
  | UNKNOWN
deriving DecidableEq, Repr

/-- Confidence enumeration from `sensing.perceivedworld`: certainty of a
sensing observation, ordered DETECT < RECOGNISE < IDENTIFY. -/
inductive Confidence where
  | DETECT
  | RECOGNISE
  | IDENTIFY
deriving DecidableEq, Repr

/-- Numeric rank of a confidence level, realising the DETECT < RECOGNISE <
IDENTIFY ordering. -/
def Confidence.toNat : Confidence → Nat
  | .DETECT => 0
  | .RECOGNISE => 1
  | .IDENTIFY => 2

/-- Whether confidence `c` is at least `threshold` in the DETECT < RECOGNISE
< IDENTIFY ordering. -/
def Confidence.atLeast (c threshold : Confidence) : Bool :=
  decide (threshold.toNat ≤ c.toNat)

/-- Casualty state of a perceived agent, from `sensing.agentcasualtystate`. -/
inductive AgentCasualtyState where
  | ALIVE
  | KILLED
deriving DecidableEq, Repr

/-- Perceived-agent snapshot record from `sensing.perceivedworld`: immutable
value with location, sense timestamp, confidence, unique identifier,
affiliation and casualty state.  The timestamp is modelled as a plain
number; the resolver never inspects it. -/
structure PerceivedAgent where
  location : Int × Int
  sense_time : Nat
  confidence : Confidence
  unique_id : Nat
  affiliation : Affiliation
  casualty_state : AgentCasualtyState
deriving DecidableEq, Repr

/-- Acting agent as seen by the target resolver: only its affiliation is
consulted (the tests use a mock `RetAgent` carrying just an affiliation). -/
structure AffiliatedAgent where
  affiliation : Affiliation
deriving DecidableEq, Repr

namespace DefaultHostileTargetResolver

/-- Modelled from the spec: the acting agent's designated enemy affiliation,
computed once from the lookup FRIENDLY→HOSTILE, HOSTILE→FRIENDLY, else none
(`mesa_ret.behaviours.fire`, absent from the source excerpt). -/
def hostility : Affiliation → Option Affiliation
  | .FRIENDLY => some .HOSTILE
  | .HOSTILE => some .FRIENDLY
  | .NEUTRAL => none
  | .UNKNOWN => none

/-- Modelled from the spec: `DefaultHostileTargetResolver.run` from
`mesa_ret.behaviours.fire` (absent from the source excerpt).  Single pass
over the perceived-world snapshot: an entry is included when its confidence
is at least IDENTIFY and its affiliation equals the acting agent's enemy
affiliation.  Order preserved; inputs not mutated. -/
def run (agent : AffiliatedAgent) (perceived_world : List PerceivedAgent) :
    List PerceivedAgent :=
  perceived_world.filter (fun p =>
    p.confidence.atLeast .IDENTIFY
      && decide (some p.affiliation = hostility agent.affiliation))

end DefaultHostileTargetResolver

/-- Convenience constructor for perceived agents, matching the literal values
used by `create_perceived_world` in `test_fire_target_selection.py` for every
field other than the unique id, the affiliation and the confidence. -/
def mkPerceived (uid : Nat) (aff : Affiliation) (conf : Confidence) :
    PerceivedAgent :=
  { location := (0, 0), sense_time := 0, confidence := conf, unique_id := uid,
    affiliation := aff, casualty_state := .ALIVE }

/-- The perceived world built by `create_perceived_world` in
`test_fire_target_selection.py`: two IDENTIFY-confidence agents of each
affiliation, unique ids 0 to 7, in affiliation declaration order. -/
def create_perceived_world : List PerceivedAgent :=
  [ mkPerceived 0 .FRIENDLY .IDENTIFY, mkPerceived 1 .FRIENDLY .IDENTIFY,
    mkPerceived 2 .HOSTILE .IDENTIFY, mkPerceived 3 .HOSTILE .IDENTIFY,
    mkPerceived 4 .NEUTRAL .IDENTIFY, mkPerceived 5 .NEUTRAL .IDENTIFY,
    mkPerceived 6 .UNKNOWN .IDENTIFY, mkPerceived 7 .UNKNOWN .IDENTIFY ]

/-- Behaviour categories appearing in the agent constructors and tests
(`Wait`, `Move`, `Fire`, `Sense`, `Hide`, the communicate variants,
`DisableCommunication`, `DeployCountermeasure`). -/
inductive BehaviourCategory where
  | wait
  | move
  | fire
  | sense
  | hide
  | communicateWorldview
  | communicateMissionMessage
  | communicateOrders
  | disableCommunication
  | deployCountermeasure
deriving DecidableEq, Repr

/-- Modelled from the spec: `Behaviour` (`ret.behaviours`, absent from the
source excerpt) is a value-like unit of capability tagged by category and
carrying variant-specific parameters; equality is value-based.  The
parameter payload is modelled as a list of integers, which is all the claims
inspect of it. -/
structure Behaviour where
  category : BehaviourCategory
  params : List Int
deriving DecidableEq, Repr

/-- One entry of a behaviour pool: the behaviour together with whether it
was registered as a default (by `add_default_behaviour`) or user-supplied
(by `add_behaviour`). -/
structure PoolEntry where
  behaviour : Behaviour
  isDefault : Bool
deriving DecidableEq, Repr

/-- Modelled from the spec: `BehaviourPool` from `ret.behaviours.behaviourpool`
(absent from the source excerpt); a per-agent registry of behaviours kept in
insertion order. -/
structure BehaviourPool where
  entries : List PoolEntry
deriving DecidableEq, Repr

/-- Adder policy for `add_behaviour`: the replace-default policy used at
agent construction, or the `AlwaysAdder` policy. -/
inductive ListAdder where
  | replaceAdder
  | alwaysAdder
deriving DecidableEq, Repr

/-- The empty behaviour pool an agent starts with. -/
def BehaviourPool.empty : BehaviourPool := ⟨[]⟩

/-- Modelled from the spec: `add_behaviour` from `ret.behaviours.behaviourpool`
(absent from the source excerpt).  Under `AlwaysAdder` it appends to the
pool unconditionally, never replacing; under the replace-default policy it
seeds a user-supplied behaviour, removing any default of the same
category. -/
def BehaviourPool.add_behaviour (pool : BehaviourPool) (adder : ListAdder)
    (behaviour : Behaviour) : BehaviourPool :=
  match adder with
  | .alwaysAdder => ⟨pool.entries ++ [⟨behaviour, false⟩]⟩
  | .replaceAdder =>
      ⟨(pool.entries.filter (fun e =>
          !(e.isDefault && decide (e.behaviour.category = behaviour.category))))
        ++ [⟨behaviour, false⟩]⟩

/-- Modelled from the spec: `add_default_behaviour(behaviour, category)` from
`ret.behaviours.behaviourpool` (absent from the source excerpt).  Registers
`behaviour` under `category` only if no user-supplied behaviour of that
category already exists; otherwise it is a no-op. -/
def BehaviourPool.add_default_behaviour (pool : BehaviourPool)
    (behaviour : Behaviour) (category : BehaviourCategory) : BehaviourPool :=
  if pool.entries.any (fun e =>
      !e.isDefault && decide (e.behaviour.category = category))
  then pool
  else ⟨pool.entries ++ [⟨behaviour, true⟩]⟩

/-- Modelled from the spec: `expose_behaviour(step_name, category)` from
`ret.behaviours.behaviourpool` (absent from the source excerpt).  Returns,
in insertion order, the behaviours registered under `category`; the spec
describes no step-based filtering, so the step name is not consulted. -/
def BehaviourPool.expose_behaviour (pool : BehaviourPool) (step_name : String)
    (category : BehaviourCategory) : List Behaviour :=
  (pool.entries.filter (fun e => decide (e.behaviour.category = category))).map
    (fun e => e.behaviour)

/-- The step name used by every test when querying the pool. -/
def stepName : String := "step"

/-- Python exception classes relevant to the trigger factory.  Both named
failure kinds are raised as `TypeError` in the tests. -/
inductive PyExceptionType where
  | typeError
  | valueError
deriving DecidableEq, Repr

/-- A raised Python exception: its class together with its message string. -/
structure PyError where
  exceptionType : PyExceptionType
  message : String
deriving DecidableEq, Repr

deriving instance DecidableEq for Except

/-- The MissingArgument failure, pinned by `TestCheckArgValidity`: a
`TypeError` with this exact message. -/
def missingArgumentError : PyError :=
  ⟨.typeError, "Argument required for selected trigger not given."⟩

/-- The UnsupportedTriggerType failure, pinned by `test_wrong_type_exception`:
a `TypeError` with this exact message. -/
def unsupportedTriggerTypeError : PyError :=
  ⟨.typeError, "Selected Trigger Type does not exist."⟩

/-- `TriggerType` enumeration from `orders.triggers.triggertype`.
`COMPOUND_AND` has no construction rule in the factory. -/
inductive TriggerType where
  | IMMEDIATE
  | IMMEDIATE_SENSOR_FUSION
  | KILLED_AGENTS_AT_POSITION
  | ALIVE_AGENTS_AT_POSITION
  | AGENT_AT_POSITION
  | AGENT_IN_AREA
  | AGENT_NOT_IN_AREA
  | AGENT_CROSSED_BOUNDARY
  | AGENT_MOVED_OUT_OF_AREA
  | AGENT_KILLED
  | TIME
  | AGENT_FIRED_WEAPON
  | WEAPON_FIRED_NEAR_AGENT
  | WEAPON_FIRED_NEAR_LOCATION
  | COMPOUND_AND
deriving DecidableEq, Repr

/-- Planar coordinate, as used by the trigger-creation test. -/
abbrev Position := Int × Int

/-- `MockAgent` from `mesa_ret.testing.mocks`: an agent reference with a
unique id and a position, as constructed by `MockAgent(1, (0, 1))`. -/
structure MockAgent where
  unique_id : Nat
  pos : Position
deriving DecidableEq, Repr

/-- `BoxFeature` from `mesa_ret.space.feature`: an area defined by two
corner coordinates and a name. -/
structure BoxFeature where
  min_coord : Position
  max_coord : Position
  name : String
deriving DecidableEq, Repr

/-- `LineFeature` from `mesa_ret.space.feature`: a boundary defined by two
coordinates and a name. -/
structure LineFeature where
  coord_1 : Position
  coord_2 : Position
  name : String
deriving DecidableEq, Repr

/-- Calendar timestamp, modelling the `datetime` values fed to time
triggers. -/
structure DateTime where
  year : Nat
  month : Nat
  day : Nat
  hour : Nat
  minute : Nat
deriving DecidableEq, Repr

/-- Modelled from the spec: a constructed `Trigger` (the concrete trigger
classes of `mesa_ret.orders.triggers` are absent from the source excerpt).
Each variant stores the sticky and log flags plus the specific field subset
its kind requires; fields not relevant to the kind are `none`, and `invert`
is `none` for kinds that carry no invert flag.  Equality is value-based. -/
structure Trigger where
  kind : TriggerType
  sticky : Bool
  log : Bool
  invert : Option Bool
  position : Option Position
  agent : Option MockAgent
  tolerance : Option ℚ
  area : Option BoxFeature
  boundary : Option LineFeature
  time : Option DateTime
deriving DecidableEq, Repr

/-- Modelled from the spec: `_check_arg_not_none` from
`mesa_ret.creator.triggers` (absent from the source excerpt).  The spec's
prose describes an all-null check, but the repository's own tests
(`TestCheckArgValidity.test_some_none_values`) assert that the partially
null list `[1, None, 1, None]` raises, so the check is modelled as the
tests pin it: it raises the MissingArgument `TypeError` as soon as any
entry is null, and returns `True` otherwise. -/
def _check_arg_not_none {α : Type} (args : List (Option α)) :
    Except PyError Bool :=
  if args.any (fun a => a.isNone) then .error missingArgumentError
  else .ok true

/-- Modelled from the spec: `_check_optional_arg_not_none` from
`mesa_ret.creator.triggers` (absent from the source excerpt).  Takes the
(sticky, log, invert) entries for one slot and returns each supplied
non-null value unchanged, substituting the field's universal default
otherwise; the defaults `[False, True, False]` are pinned by
`TestCheckOptionalArgValidity.test_all_none_values`. -/
def _check_optional_arg_not_none (sticky log invert : Option Bool) :
    List Bool :=
  [sticky.getD false, log.getD true, invert.getD false]

/-- Presence erasure used to feed heterogeneous field entries to the
required-argument check, which only inspects null-ness. -/
def presence {α : Type} (o : Option α) : Option Unit :=
  o.map (fun _ => ())

/-- Modelled from the spec: the per-kind construction rule of the trigger
factory (the trigger classes and the factory dispatch of
`mesa_ret.creator.triggers` are absent from the source excerpt).  The kind
is dispatched first, so an unknown kind fails with UnsupportedTriggerType
regardless of every other argument; for known kinds the fields the kind
requires are passed through the required-argument check and then stored.
The per-kind field subsets are reconstructed from the trigger-class names
and the arguments the tests supply. -/
def buildTrigger (tt : TriggerType) (sticky log invert : Bool)
    (position : Option Position) (agent : Option MockAgent)
    (tolerance : Option ℚ) (area : Option BoxFeature)
    (boundary : Option LineFeature) (time : Option DateTime) :
    Except PyError Trigger :=
  match tt with
  | .IMMEDIATE =>
      .ok { kind := tt, sticky := sticky, log := log, invert := none,
            position := none, agent := none, tolerance := none, area := none,
            boundary := none, time := none }
  | .IMMEDIATE_SENSOR_FUSION =>
      .ok { kind := tt, sticky := sticky, log := log, invert := none,
            position := none, agent := none, tolerance := none, area := none,
            boundary := none, time := none }
  | .KILLED_AGENTS_AT_POSITION =>
      match _check_arg_not_none [presence position] with
      | .error e => .error e
      | .ok _ =>
          .ok { kind := tt, sticky := sticky, log := log, invert := none,
                position := position, agent := none, tolerance := none,
                area := none, boundary := none, time := none }
  | .ALIVE_AGENTS_AT_POSITION =>
      match _check_arg_not_none [presence position] with
      | .error e => .error e
      | .ok _ =>
          .ok { kind := tt, sticky := sticky, log := log,
                invert := some invert, position := position, agent := none,
                tolerance := none, area := none, boundary := none,
                time := none }
  | .AGENT_AT_POSITION =>
      match _check_arg_not_none [presence agent, presence position,
                                 presence tolerance] with
      | .error e => .error e
      | .ok _ =>
          .ok { kind := tt, sticky := sticky, log := log,
                invert := some invert, position := position, agent := agent,
                tolerance := tolerance, area := none, boundary := none,
                time := none }
  | .AGENT_IN_AREA =>
      match _check_arg_not_none [presence agent, presence area] with
      | .error e => .error e
      | .ok _ =>
          .ok { kind := tt, sticky := sticky, log := log,
                invert := some invert, position := none, agent := agent,
                tolerance := none, area := area, boundary := none,
                time := none }
  | .AGENT_NOT_IN_AREA =>
      match _check_arg_not_none [presence agent, presence area] with
      | .error e => .error e
      | .ok _ =>
          .ok { kind := tt, sticky := sticky, log := log,
                invert := some invert, position := none, agent := agent,
                tolerance := none, area := area, boundary := none,
                time := none }
  | .AGENT_CROSSED_BOUNDARY =>
      match _check_arg_not_none [presence agent, presence boundary] with
      | .error e => .error e
      | .ok _ =>
          .ok { kind := tt, sticky := sticky, log := log, invert := none,
                position := none, agent := agent, tolerance := none,
                area := none, boundary := boundary, time := none }
  | .AGENT_MOVED_OUT_OF_AREA =>
      match _check_arg_not_none [presence agent, presence area] with
      | .error e => .error e
      | .ok _ =>
          .ok { kind := tt, sticky := sticky, log := log, invert := none,
                position := none, agent := agent, tolerance := none,
                area := area, boundary := none, time := none }
  | .AGENT_KILLED =>
      match _check_arg_not_none [presence agent] with
      | .error e => .error e
      | .ok _ =>
          .ok { kind := tt, sticky := sticky, log := log, invert := none,
                position := none, agent := agent, tolerance := none,
                area := none, boundary := none, time := none }
  | .TIME =>
      match _check_arg_not_none [presence time] with
      | .error e => .error e
      | .ok _ =>
          .ok { kind := tt, sticky := sticky, log := log, invert := none,
                position := none, agent := none, tolerance := none,
                area := none, boundary := none, time := time }
  | .AGENT_FIRED_WEAPON =>
      match _check_arg_not_none [presence agent] with
      | .error e => .error e
      | .ok _ =>
          .ok { kind := tt, sticky := sticky, log := log, invert := none,
                position := none, agent := agent, tolerance := none,
                area := none, boundary := none, time := none }
  | .WEAPON_FIRED_NEAR_AGENT =>
      match _check_arg_not_none [presence agent, presence tolerance] with
      | .error e => .error e
      | .ok _ =>
          .ok { kind := tt, sticky := sticky, log := log, invert := none,
                position := none, agent := agent, tolerance := tolerance,
                area := none, boundary := none, time := none }
  | .WEAPON_FIRED_NEAR_LOCATION =>
      match _check_arg_not_none [presence position, presence tolerance] with
      | .error e => .error e
      | .ok _ =>
          .ok { kind := tt, sticky := sticky, log := log, invert := none,
                position := position, agent := none, tolerance := tolerance,
                area := none, boundary := none, time := none }
  | .COMPOUND_AND => .error unsupportedTriggerTypeError

/-- A scalar-or-list polymorphic parameter of `create_triggers`, as the
spec's design notes prescribe: absent entirely, a single broadcast value,
or a per-index list whose entries may be null. -/
inductive Arg (α : Type) where
  | missing
  | scalar (value : α)
  | perIndex (values : List (Option α))

/-- Normalisation of a scalar-or-list parameter into a length-`n` list of
optional values, as the spec requires before processing. -/
def Arg.resolve {α : Type} : Arg α → Nat → List (Option α)
  | .missing, n => List.replicate n none
  | .scalar v, n => List.replicate n (some v)
  | .perIndex vs, _ => vs

/-- The `trigger_type` parameter of `create_triggers`: a single enum value
broadcast to all slots, or a list of per-slot values (never null). -/
inductive TypeArg where
  | scalar (value : TriggerType)
  | perIndex (values : List TriggerType)

/-- Normalisation of the `trigger_type` parameter into the list of the
`number` trigger kinds to construct. -/
def TypeArg.resolve : TypeArg → Nat → List TriggerType
  | .scalar t, n => List.replicate n t
  | .perIndex ts, n => ts.take n

/-- Modelled from the spec: the per-index construction loop of
`create_triggers`.  For slot `i` the optional (sticky, log, invert) entries
are defaulted through `_check_optional_arg_not_none` and the trigger is
then built from the kind at that slot; the first failure aborts the whole
batch. -/
def createLoop (types : List TriggerType) (i : Nat)
    (sticky log invert : List (Option Bool))
    (position : List (Option Position)) (agent : List (Option MockAgent))
    (tolerance : List (Option ℚ)) (area : List (Option BoxFeature))
    (boundary : List (Option LineFeature)) (time : List (Option DateTime)) :
    Except PyError (List Trigger) :=
  match types with
  | [] => .ok []
  | t :: rest =>
      let opts := _check_optional_arg_not_none (sticky[i]?.join) (log[i]?.join)
        (invert[i]?.join)
      match buildTrigger t (opts.getD 0 false) (opts.getD 1 true)
          (opts.getD 2 false) (position[i]?.join) (agent[i]?.join)
          (tolerance[i]?.join) (area[i]?.join) (boundary[i]?.join)
          (time[i]?.join) with
      | .error e => .error e
      | .ok trigger =>
          match createLoop rest (i + 1) sticky log invert position agent
              tolerance area boundary time with
          | .error e => .error e
          | .ok triggers => .ok (trigger :: triggers)

/-- Modelled from the spec: `create_triggers` from `mesa_ret.creator.triggers`
(absent from the source excerpt).  Every parameter is normalised into a
length-`number` list of optional per-slot values and the batch is built
slot by slot. -/
def create_triggers (number : Nat) (trigger_type : TypeArg)
    (sticky : Arg Bool) (log : Arg Bool) (invert : Arg Bool)
    (position : Arg Position) (agent : Arg MockAgent) (tolerance : Arg ℚ)
    (area : Arg BoxFeature) (boundary : Arg LineFeature)
    (time : Arg DateTime) : Except PyError (List Trigger) :=
  createLoop (trigger_type.resolve number) 0 (sticky.resolve number)
    (log.resolve number) (invert.resolve number) (position.resolve number)
    (agent.resolve number) (tolerance.resolve number) (area.resolve number)
    (boundary.resolve number) (time.resolve number)

/-- The fourteen trigger kinds of `TestCreateMultipleTriggers.setUp`, in
order. -/
def scenarioTriggerTypes : List TriggerType :=
  [ .IMMEDIATE, .IMMEDIATE_SENSOR_FUSION, .KILLED_AGENTS_AT_POSITION,
    .ALIVE_AGENTS_AT_POSITION, .AGENT_AT_POSITION, .AGENT_IN_AREA,
    .AGENT_NOT_IN_AREA, .AGENT_CROSSED_BOUNDARY, .AGENT_MOVED_OUT_OF_AREA,
    .AGENT_KILLED, .TIME, .AGENT_FIRED_WEAPON, .WEAPON_FIRED_NEAR_AGENT,
    .WEAPON_FIRED_NEAR_LOCATION ]

/-- The per-index sticky list of `TestCreateMultipleTriggers.setUp`. -/
def scenarioSticky : List (Option Bool) :=
  [ some true, some true, some false, some true, some true, some true,
    some true, some true, some true, some true, some true, some true,
    some true, some true ]

/-- The per-index position list of `TestCreateMultipleTriggers.setUp`,
with null entries at the slots whose kinds need no position. -/
def scenarioPosition : List (Option Position) :=
  [ none, none, some (1, 1), some (0, 0), some (0, 0), some (1, 0), none,
    none, none, none, none, none, none, some (1, 1) ]

/-- The remaining scalar field values of `TestCreateMultipleTriggers.setUp`:
`MockAgent(1, (0, 1))`, tolerance 0.5, the box area, the line boundary and
the timestamp 2020-01-01 00:00. -/
def scenarioAgent : MockAgent := ⟨1, (0, 1)⟩

/-- The box area of the scenario. -/
def scenarioArea : BoxFeature := ⟨(0, 0), (1, 1), "Test Box Area"⟩

/-- The line boundary of the scenario. -/
def scenarioBoundary : LineFeature := ⟨(0, 0), (1, 1), "Test Box Area"⟩

/-- The timestamp of the scenario. -/
def scenarioTime : DateTime := ⟨2020, 1, 1, 0, 0⟩

/-- The batch call of `test_create_multiple_triggers`: fourteen triggers
with the per-index type and sticky lists, scalar `log=False`, `invert`
unsupplied, the per-index position list and the remaining scalar fields. -/
def scenarioResult : Except PyError (List Trigger) :=
  create_triggers 14 (.perIndex scenarioTriggerTypes)
    (.perIndex scenarioSticky) (.scalar false) .missing
    (.perIndex scenarioPosition) (.scalar scenarioAgent)
    (.scalar ((1 : ℚ) / 2)) (.scalar scenarioArea) (.scalar scenarioBoundary)
    (.scalar scenarioTime)

/-- Shared lemma: a batch whose trigger-type parameter is the scalar
`COMPOUND_AND` fails with the UnsupportedTriggerType failure as soon as the
batch is non-empty, whatever the other arguments are. -/
theorem create_triggers_compound_and_error (number : Nat)
    (sticky log invert : Arg Bool) (position : Arg Position)
    (agent : Arg MockAgent) (tolerance : Arg ℚ) (area : Arg BoxFeature)
    (boundary : Arg LineFeature) (time : Arg DateTime) (h : 0 < number) :
    create_triggers number (.scalar .COMPOUND_AND) sticky log invert position
      agent tolerance area boundary time
      = .error unsupportedTriggerTypeError := by
  cases number with
  | zero => exact absurd h (by simp)
  | succ m =>
      simp [create_triggers, TypeArg.resolve, List.replicate_succ, createLoop,
        buildTrigger]

/-- Shared lemma: looking up any index of an all-null normalised parameter
list yields a null entry. -/
theorem join_replicate_none {α : Type} (n i : Nat) :
    ((List.replicate n (none : Option α))[i]?).join = none := by
  simp [List.getElem?_replicate]

/-- Shared lemma: looking up an in-range index of a broadcast scalar
parameter list yields the scalar. -/
theorem join_replicate_some {α : Type} (n i : Nat) (v : α) (h : i < n) :
    ((List.replicate n (some v))[i]?).join = some v := by
  simp [List.getElem?_replicate, h]

/-- Shared lemma: the required-argument check fails with the MissingArgument
failure exactly when some entry of the list is null. -/
theorem check_arg_not_none_error_iff {α : Type} (args : List (Option α)) :
    _check_arg_not_none args = .error missingArgumentError
      ↔ ∃ a ∈ args, a = none := by
  have hany : (args.any (fun a => a.isNone) = true) ↔ ∃ a ∈ args, a = none := by
    simp [List.any_eq_true, Option.isNone_iff_eq_none]
  rw [← hany]
  cases h : args.any (fun a => a.isNone) <;>
    simp [_check_arg_not_none, h]

/-- Shared lemma: the required-argument check passes, returning True, exactly
when every entry of the list is non-null. -/
theorem check_arg_not_none_ok_iff {α : Type} (args : List (Option α)) :
    _check_arg_not_none args = .ok true ↔ ∀ a ∈ args, a ≠ none := by
  have hany : (args.any (fun a => a.isNone) = false)
      ↔ ∀ a ∈ args, a ≠ none := by
    simp only [← Bool.not_eq_true, List.any_eq_true,
      Option.isNone_iff_eq_none, not_exists, not_and]
  rw [← hany]
  cases h : args.any (fun a => a.isNone) <;>
    simp [_check_arg_not_none, h]

/-- C1 counterexample: the list `[1, None, 1, None]` contains non-null
entries, yet the required-argument check raises the MissingArgument failure
— exactly what `TestCheckArgValidity.test_some_none_values` asserts — so
the claim that the check passes for every list with at least one non-null
entry is false at this input. -/
theorem c1_check_arg_counterexample :
    ([some 1, none, some 1, none] : List (Option Int)).any
        (fun a => a.isSome) = true
    ∧ _check_arg_not_none ([some 1, none, some 1, none] : List (Option Int))
        = .error missingArgumentError := by
  exact ⟨by decide, by decide⟩

/-- C1 (amended): `_check_arg_not_none` raises the MissingArgument failure,
with message "Argument required for selected trigger not given.", if and
only if at least one entry of the supplied list is null, and passes
(returning True) if and only if every entry is non-null; this matches all
three `TestCheckArgValidity` tests. -/
theorem c1_check_arg_any_null :
    (∀ (α : Type) (args : List (Option α)),
      (_check_arg_not_none args = .error missingArgumentError
        ↔ ∃ a ∈ args, a = none)
      ∧ (_check_arg_not_none args = .ok true ↔ ∀ a ∈ args, a ≠ none))
    ∧ _check_arg_not_none ([some 1] : List (Option Int)) = .ok true
    ∧ _check_arg_not_none ([none] : List (Option Int))
        = .error missingArgumentError
    ∧ _check_arg_not_none ([some 1, none, some 1, none] : List (Option Int))
        = .error missingArgumentError := by
  refine ⟨fun α args => ⟨check_arg_not_none_error_iff args,
    check_arg_not_none_ok_iff args⟩, by decide, by decide, by decide⟩

/-- C4: every `create_triggers` call requesting the `COMPOUND_AND` trigger
kind, which has no registered construction rule, fails with the
UnsupportedTriggerType failure — a `TypeError` with message "Selected
Trigger Type does not exist." — regardless of the values of all other
arguments. -/
theorem c4_unsupported_trigger_type (number : Nat)
    (sticky log invert : Arg Bool) (position : Arg Position)
    (agent : Arg MockAgent) (tolerance : Arg ℚ) (area : Arg BoxFeature)
    (boundary : Arg LineFeature) (time : Arg DateTime) (h : 0 < number) :
    create_triggers number (.scalar .COMPOUND_AND) sticky log invert position
      agent tolerance area boundary time
      = .error unsupportedTriggerTypeError :=
  create_triggers_compound_and_error number sticky log invert position agent
    tolerance area boundary time h

/-- C4 witness: the concrete call of `test_wrong_type_exception`,
`create_triggers(1, COMPOUND_AND)` with every other argument unsupplied. -/
theorem c4_unsupported_trigger_type_witness :
    create_triggers 1 (.scalar .COMPOUND_AND) .missing .missing .missing
      .missing .missing .missing .missing .missing .missing
      = .error unsupportedTriggerTypeError :=
  c4_unsupported_trigger_type 1 .missing .missing .missing .missing .missing
    .missing .missing .missing .missing (by decide)

/-- C5: the concrete fourteen-trigger batch of
`test_create_multiple_triggers` succeeds, returns the fourteen kinds in
exactly the input order, and has sticky True at index 6, sticky False at
index 2, log False at indices 1 and 5, and invert False at index 3. -/
theorem c5_concrete_batch :
    scenarioResult.toOption.map (fun ts => ts.map Trigger.kind)
      = some scenarioTriggerTypes
    ∧ scenarioResult.toOption.map (fun ts => ts.length) = some 14
    ∧ scenarioResult.toOption.map (fun ts =>
        ((ts[6]?).map Trigger.sticky, (ts[2]?).map Trigger.sticky,
         (ts[1]?).map Trigger.log, (ts[5]?).map Trigger.log,
         (ts[3]?).map Trigger.invert))
      = some (some true, some false, some false, some false,
              some (some false)) := by
  exact ⟨by decide, by decide, by decide⟩

/-- C6: broadcasting a scalar and supplying the corresponding length-N list
are interchangeable, for the trigger-type parameter and for every field
parameter: the two calls produce element-wise identical results whatever
the remaining arguments are. -/
theorem c6_scalar_list_broadcast (number : Nat) (trigger_type : TypeArg)
    (sticky log invert : Arg Bool) (position : Arg Position)
    (agent : Arg MockAgent) (tolerance : Arg ℚ) (area : Arg BoxFeature)
    (boundary : Arg LineFeature) (time : Arg DateTime) (tv : TriggerType)
    (bv : Bool) (pv : Position) (av : MockAgent) (qv : ℚ)
    (arv : BoxFeature) (lv : LineFeature) (dv : DateTime) :
    (create_triggers number (.scalar tv) sticky log invert position agent
        tolerance area boundary time
      = create_triggers number (.perIndex (List.replicate number tv)) sticky
          log invert position agent tolerance area boundary time)
    ∧ (create_triggers number trigger_type (.scalar bv) log invert position
        agent tolerance area boundary time
      = create_triggers number trigger_type
          (.perIndex (List.replicate number (some bv))) log invert position
          agent tolerance area boundary time)
    ∧ (create_triggers number trigger_type sticky (.scalar bv) invert
        position agent tolerance area boundary time
      = create_triggers number trigger_type sticky
          (.perIndex (List.replicate number (some bv))) invert position
          agent tolerance area boundary time)
    ∧ (create_triggers number trigger_type sticky log (.scalar bv) position
        agent tolerance area boundary time
      = create_triggers number trigger_type sticky log
          (.perIndex (List.replicate number (some bv))) position agent
          tolerance area boundary time)
    ∧ (create_triggers number trigger_type sticky log invert (.scalar pv)
        agent tolerance area boundary time
      = create_triggers number trigger_type sticky log invert
          (.perIndex (List.replicate number (some pv))) agent tolerance area
          boundary time)
    ∧ (create_triggers number trigger_type sticky log invert position
        (.scalar av) tolerance area boundary time
      = create_triggers number trigger_type sticky log invert position
          (.perIndex (List.replicate number (some av))) tolerance area
          boundary time)
    ∧ (create_triggers number trigger_type sticky log invert position agent
        (.scalar qv) area boundary time
      = create_triggers number trigger_type sticky log invert position agent
          (.perIndex (List.replicate number (some qv))) area boundary time)
    ∧ (create_triggers number trigger_type sticky log invert position agent
        tolerance (.scalar arv) boundary time
      = create_triggers number trigger_type sticky log invert position agent
          tolerance (.perIndex (List.replicate number (some arv))) boundary
          time)
    ∧ (create_triggers number trigger_type sticky log invert position agent
        tolerance area (.scalar lv) time
      = create_triggers number trigger_type sticky log invert position agent
          tolerance area (.perIndex (List.replicate number (some lv))) time)
    ∧ (create_triggers number trigger_type sticky log invert position agent
        tolerance area boundary (.scalar dv)
      = create_triggers number trigger_type sticky log invert position agent
          tolerance area boundary
          (.perIndex (List.replicate number (some dv)))) := by
  refine ⟨?_, rfl, rfl, rfl, rfl, rfl, rfl, rfl, rfl, rfl⟩
  simp [create_triggers, TypeArg.resolve, List.take_replicate]

/-- Shared lemma: the construction loop over a batch of
`ALIVE_AGENTS_AT_POSITION` slots whose optional fields are all unsupplied
and whose position is a broadcast scalar produces, at every in-range
starting index, the fully defaulted trigger for each slot. -/
theorem createLoop_alive_defaults (pos : Position) (number : Nat) :
    ∀ (m i : Nat), i + m ≤ number →
    createLoop (List.replicate m .ALIVE_AGENTS_AT_POSITION) i
        (List.replicate number none) (List.replicate number none)
        (List.replicate number none) (List.replicate number (some pos))
        (List.replicate number none) (List.replicate number none)
        (List.replicate number none) (List.replicate number none)
        (List.replicate number none)
      = .ok (List.replicate m
          { kind := .ALIVE_AGENTS_AT_POSITION, sticky := false, log := true,
            invert := some false, position := some pos, agent := none,
            tolerance := none, area := none, boundary := none,
            time := none }) := by
  intro m
  induction m with
  | zero => intro i _; rfl
  | succ k ih =>
      intro i h
      have hi : i < number := by omega
      have hrec := ih (i + 1) (by omega)
      simp only [List.replicate_succ, createLoop,
        _check_optional_arg_not_none, join_replicate_none,
        join_replicate_some number i pos hi, buildTrigger,
        _check_arg_not_none, presence, hrec, Option.getD, List.getD,
        Option.map, List.any, Option.isNone]
      rfl

/-- C8: the optional-argument check keeps each supplied non-null value and
substitutes the per-field universal defaults for null ones — supplied
values pass through unchanged, all-None input yields `[False, True, False]`
and `(True, None, None)` yields `[True, True, False]` — and every trigger
of a kind using those fields is constructed with the defaults when the
fields are supplied as None. -/
theorem c8_optional_defaults :
    (∀ (s l i : Bool),
      _check_optional_arg_not_none (some s) (some l) (some i) = [s, l, i])
    ∧ _check_optional_arg_not_none none none none = [false, true, false]
    ∧ _check_optional_arg_not_none (some true) none none
        = [true, true, false]
    ∧ _check_optional_arg_not_none (some true) (some false) (some true)
        = [true, false, true]
    ∧ (∀ (number : Nat) (pos : Position),
      create_triggers number (.scalar .ALIVE_AGENTS_AT_POSITION) .missing
          .missing .missing (.scalar pos) .missing .missing .missing
          .missing .missing
        = .ok (List.replicate number
            { kind := .ALIVE_AGENTS_AT_POSITION, sticky := false,
              log := true, invert := some false, position := some pos,
              agent := none, tolerance := none, area := none,
              boundary := none, time := none })) := by
  refine ⟨fun s l i => rfl, rfl, rfl, rfl, ?_⟩
  intro number pos
  exact createLoop_alive_defaults pos number number 0 (by omega)

/-- C10: both named failure kinds surface as the same Python exception type
(`TypeError`) and are distinguishable only by their exact message strings:
every MissingArgument raised by the required-argument check and every
UnsupportedTriggerType raised for an unknown kind is a `TypeError`, and the
two messages differ. -/
theorem c10_same_exception_type :
    missingArgumentError.exceptionType
        = unsupportedTriggerTypeError.exceptionType
    ∧ missingArgumentError.exceptionType = PyExceptionType.typeError
    ∧ missingArgumentError.message ≠ unsupportedTriggerTypeError.message
    ∧ (∀ (α : Type) (args : List (Option α)) (e : PyError),
        _check_arg_not_none args = .error e → e = missingArgumentError)
    ∧ (∀ (number : Nat) (sticky log invert : Arg Bool)
        (position : Arg Position) (agent : Arg MockAgent)
        (tolerance : Arg ℚ) (area : Arg BoxFeature)
        (boundary : Arg LineFeature) (time : Arg DateTime) (e : PyError),
        create_triggers number (.scalar .COMPOUND_AND) sticky log invert
            position agent tolerance area boundary time = .error e →
        e = unsupportedTriggerTypeError) := by
  refine ⟨rfl, rfl, by decide, ?_, ?_⟩
  · intro α args e h
    cases ha : args.any (fun a => a.isNone) <;>
      simp [_check_arg_not_none, ha] at h
    exact h.symm
  · intro number s l iv p a tol ar b t e h
    cases number with
    | zero =>
        have h0 : create_triggers 0 (.scalar .COMPOUND_AND) s l iv p a tol
            ar b t = .ok [] := rfl
        rw [h0] at h
        exact Except.noConfusion h
    | succ m =>
        have hc := create_triggers_compound_and_error (m + 1) s l iv p a tol
          ar b t (by omega)
        rw [hc] at h
        exact (Except.error.inj h).symm

/-- C10 witness: the two checks of the tests — `_check_arg_not_none([None])`
and `create_triggers(1, COMPOUND_AND)` — raise exactly the two named
failures. -/
theorem c10_same_exception_type_witness :
    missingArgumentError = missingArgumentError
    ∧ unsupportedTriggerTypeError = unsupportedTriggerTypeError :=
  ⟨c10_same_exception_type.2.2.2.1 Int [none] missingArgumentError
      (by decide),
   c10_same_exception_type.2.2.2.2 1 .missing .missing .missing .missing
      .missing .missing .missing .missing .missing
      unsupportedTriggerTypeError (by decide)⟩

/-- C2: over any perceived world of IDENTIFY-confidence agents the resolver
returns, in input order, exactly the HOSTILE agents for a FRIENDLY actor,
exactly the FRIENDLY agents for a HOSTILE actor, and nothing for NEUTRAL or
UNKNOWN actors; on the test world of two IDENTIFY-confidence agents per
affiliation it resolves exactly the 2 HOSTILE agents, exactly the 2
FRIENDLY agents, and 0 agents respectively. -/
theorem c2_resolver_affiliation_rule :
    (∀ (agent : AffiliatedAgent) (world : List PerceivedAgent),
      (∀ p ∈ world, p.confidence = Confidence.IDENTIFY) →
      (agent.affiliation = .FRIENDLY →
        DefaultHostileTargetResolver.run agent world
          = world.filter (fun p => decide (p.affiliation = .HOSTILE)))
      ∧ (agent.affiliation = .HOSTILE →
        DefaultHostileTargetResolver.run agent world
          = world.filter (fun p => decide (p.affiliation = .FRIENDLY)))
      ∧ (agent.affiliation = .NEUTRAL ∨ agent.affiliation = .UNKNOWN →
        DefaultHostileTargetResolver.run agent world = []))
    ∧ DefaultHostileTargetResolver.run ⟨.FRIENDLY⟩ create_perceived_world
        = [mkPerceived 2 .HOSTILE .IDENTIFY, mkPerceived 3 .HOSTILE .IDENTIFY]
    ∧ DefaultHostileTargetResolver.run ⟨.HOSTILE⟩ create_perceived_world
        = [mkPerceived 0 .FRIENDLY .IDENTIFY,
           mkPerceived 1 .FRIENDLY .IDENTIFY]
    ∧ DefaultHostileTargetResolver.run ⟨.NEUTRAL⟩ create_perceived_world = []
    ∧ DefaultHostileTargetResolver.run ⟨.UNKNOWN⟩ create_perceived_world
        = [] := by
  refine ⟨?_, by decide, by decide, by decide, by decide⟩
  intro agent world hconf
  refine ⟨?_, ?_, ?_⟩
  · intro ha
    unfold DefaultHostileTargetResolver.run
    rw [ha]
    apply List.filter_congr
    intro p hp
    rw [hconf p hp]
    cases hpa : p.affiliation <;>
      simp [Confidence.atLeast, Confidence.toNat,
        DefaultHostileTargetResolver.hostility]
  · intro ha
    unfold DefaultHostileTargetResolver.run
    rw [ha]
    apply List.filter_congr
    intro p hp
    rw [hconf p hp]
    cases hpa : p.affiliation <;>
      simp [Confidence.atLeast, Confidence.toNat,
        DefaultHostileTargetResolver.hostility]
  · intro ha
    unfold DefaultHostileTargetResolver.run
    rw [List.filter_eq_nil_iff]
    intro p hp
    rcases ha with ha | ha <;> rw [ha] <;>
      simp [DefaultHostileTargetResolver.hostility]

/-- C2 witness: for a FRIENDLY actor and the all-IDENTIFY test world the
resolver result is exactly the HOSTILE sub-list. -/
theorem c2_resolver_affiliation_rule_witness :
    DefaultHostileTargetResolver.run ⟨.FRIENDLY⟩ create_perceived_world
      = create_perceived_world.filter
          (fun p => decide (p.affiliation = .HOSTILE)) :=
  (c2_resolver_affiliation_rule.1 ⟨.FRIENDLY⟩ create_perceived_world
    (by decide)).1 rfl

/-- C7: the resolver never returns a perceived agent whose confidence is
below IDENTIFY, whatever affiliation it carries — every returned agent has
confidence IDENTIFY — and the confidence threshold acts before the
affiliation comparison: pre-filtering the world to at-least-IDENTIFY
entries leaves the result unchanged. -/
theorem c7_confidence_threshold :
    (∀ (agent : AffiliatedAgent) (world : List PerceivedAgent)
        (p : PerceivedAgent),
      p ∈ DefaultHostileTargetResolver.run agent world →
      p.confidence = Confidence.IDENTIFY)
    ∧ (∀ (agent : AffiliatedAgent) (world : List PerceivedAgent),
      DefaultHostileTargetResolver.run agent world
        = DefaultHostileTargetResolver.run agent
            (world.filter (fun p => p.confidence.atLeast .IDENTIFY))) := by
  constructor
  · intro agent world p hp
    unfold DefaultHostileTargetResolver.run at hp
    rw [List.mem_filter] at hp
    obtain ⟨-, hpred⟩ := hp
    rw [Bool.and_eq_true] at hpred
    obtain ⟨hconf, -⟩ := hpred
    cases h : p.confidence <;> rw [h] at hconf <;>
      first
        | rfl
        | exact absurd hconf (by decide)
  · intro agent world
    unfold DefaultHostileTargetResolver.run
    rw [List.filter_filter]
    apply List.filter_congr
    intro p hp
    cases hc : p.confidence.atLeast .IDENTIFY <;> simp [hc]

/-- C7 witness: a concrete returned agent of the test world indeed has
IDENTIFY confidence. -/
theorem c7_confidence_threshold_witness :
    (mkPerceived 2 .HOSTILE .IDENTIFY).confidence = Confidence.IDENTIFY :=
  c7_confidence_threshold.1 ⟨.FRIENDLY⟩ create_perceived_world
    (mkPerceived 2 .HOSTILE .IDENTIFY) (by decide)

/-- C3: when a default behaviour and a user-supplied behaviour of the same
category are both supplied under the replace policy — in either order —
`expose_behaviour` for that category returns a sequence of length exactly
one whose single element is value-equal to the user behaviour; the default
is absent. -/
theorem c3_user_behaviour_replaces_default (category : BehaviourCategory)
    (d u : Behaviour) (hd : d.category = category)
    (hu : u.category = category) :
    ((BehaviourPool.empty.add_behaviour .replaceAdder u).add_default_behaviour
        d category).expose_behaviour stepName category = [u]
    ∧ ((BehaviourPool.empty.add_default_behaviour d category).add_behaviour
        .replaceAdder u).expose_behaviour stepName category = [u] := by
  constructor
  · simp [BehaviourPool.empty, BehaviourPool.add_behaviour,
      BehaviourPool.add_default_behaviour, BehaviourPool.expose_behaviour,
      List.filter, List.any, hu]
  · simp [BehaviourPool.empty, BehaviourPool.add_behaviour,
      BehaviourPool.add_default_behaviour, BehaviourPool.expose_behaviour,
      List.filter, List.any, hd, hu]

/-- C3 witness: a concrete wait-category default and user behaviour. -/
theorem c3_user_behaviour_replaces_default_witness :
    ((BehaviourPool.empty.add_behaviour .replaceAdder
        ⟨.wait, [1]⟩).add_default_behaviour ⟨.wait, [0]⟩
        .wait).expose_behaviour stepName .wait = [⟨.wait, [1]⟩]
    ∧ ((BehaviourPool.empty.add_default_behaviour ⟨.wait, [0]⟩
        .wait).add_behaviour .replaceAdder
        ⟨.wait, [1]⟩).expose_behaviour stepName .wait = [⟨.wait, [1]⟩] :=
  c3_user_behaviour_replaces_default .wait ⟨.wait, [0]⟩ ⟨.wait, [1]⟩ rfl rfl

/-- C9: under the AlwaysAdder policy `add_behaviour` appends unconditionally
and never replaces — exposure after an always-add is exposure before, plus
the new behaviour whenever its category matches — and a pool exposing one
behaviour of a category exposes, after always-adding a value-equal
behaviour, exactly two entries in call order. -/
theorem c9_always_adder_appends (pool : BehaviourPool) (b : Behaviour)
    (category : BehaviourCategory) :
    ((pool.add_behaviour .alwaysAdder b).expose_behaviour stepName category
      = pool.expose_behaviour stepName category
        ++ (if b.category = category then [b] else []))
    ∧ (b.category = category →
      pool.expose_behaviour stepName category = [b] →
      (pool.add_behaviour .alwaysAdder b).expose_behaviour stepName category
        = [b, b]) := by
  have happ : (pool.add_behaviour .alwaysAdder b).expose_behaviour stepName
      category = pool.expose_behaviour stepName category
        ++ (if b.category = category then [b] else []) := by
    simp only [BehaviourPool.add_behaviour, BehaviourPool.expose_behaviour,
      List.filter_append, List.map_append]
    congr 1
    by_cases hb : b.category = category <;> simp [List.filter, hb]
  refine ⟨happ, ?_⟩
  intro hb hexp
  rw [happ, hexp, if_pos hb]
  rfl

/-- C9 witness: a concrete pool holding one wait behaviour; always-adding a
value-equal behaviour exposes two entries in call order. -/
theorem c9_always_adder_appends_witness :
    ((BehaviourPool.mk [⟨⟨.wait, []⟩, false⟩]).add_behaviour .alwaysAdder
        ⟨.wait, []⟩).expose_behaviour stepName .wait
      = [⟨.wait, []⟩, ⟨.wait, []⟩] :=
  (c9_always_adder_appends ⟨[⟨⟨.wait, []⟩, false⟩]⟩ ⟨.wait, []⟩ .wait).2 rfl
    (by decide)
